import Mathlib

/-!
Verification of the sensor-dashboard script `iot-api-guide-v1.py`
(BurstSoftware/iot-api-guide-v1).

The script's core logic is shallowly embedded here:

* `load_sensor_data` (script lines 30-44): HTTP GET + CSV parse with a
  try/except converting caught errors into a schema-preserving empty
  `DataFrame`.  The network/parse step itself is external I/O; its outcome
  is an explicit input (`FetchOutcome`).
* `fetch_sensor_data` (lines 47-63): cycles through the table's rows using
  the session-state counter `csv_row_index`.
* `send_control_command` (lines 66-72): mocked control command.
* the polling loop body (lines 106-140): appends a stamped reading to
  `sensor_history` and trims it to the last 50 entries.

Python exceptions are modelled by the inductive `PyExc`; an `except C:`
clause is modelled by a boolean class test.  The pandas class hierarchy
fact that matters here: `pandas.errors.ParserError` subclasses
`ValueError`, and `pandas.errors.EmptyDataError` also subclasses
`ValueError` but NOT `ParserError` (pandas raises `EmptyDataError` from
`read_csv` when the payload has no columns to parse, e.g. an empty
response body).  Hence `except pd.errors.ParserError` does not catch
`EmptyDataError`.
-/

namespace IotGuide

/-- A cell of the parsed CSV table: pandas stores strings (the `timestamp`
column) and numbers (`temperature`, `humidity`).  Numeric cells are carried
as integers; the claims checked here are structural (which row/column is
selected, buffer shape) and never do arithmetic on the values. -/
inductive Cell where
  | str : String → Cell
  | int : Int → Cell
deriving DecidableEq, Repr

/-- Python exceptions relevant to the script.  `requestException` covers
`requests.RequestException` and its subclasses (connection errors, timeouts,
and the `HTTPError` raised by `raise_for_status` on a non-2xx status).
`parserError` is `pandas.errors.ParserError`; `emptyDataError` is
`pandas.errors.EmptyDataError` (a `ValueError`, not a `ParserError`);
`keyError` is raised by indexing a pandas row with a missing column label;
`indexError` models positional indexing out of range. -/
inductive PyExc where
  | requestException : String → PyExc
  | parserError : String → PyExc
  | emptyDataError : String → PyExc
  | keyError : String → PyExc
  | indexError : String → PyExc
deriving DecidableEq, Repr

/-- `except requests.RequestException` class test (script line 39). -/
def isRequestException : PyExc → Bool
  | .requestException _ => true
  | _ => false

/-- `except pd.errors.ParserError` class test (script line 42).
`EmptyDataError` is not a `ParserError` subclass, so it is not matched. -/
def isParserError : PyExc → Bool
  | .parserError _ => true
  | _ => false

/-- The parsed CSV table (`pandas.DataFrame`): column labels plus rows of
cells, row `i` cell `j` belonging to column `columns[j]`. -/
structure DataFrame where
  columns : List String
  rows : List (List Cell)
deriving DecidableEq, Repr

/-- `pandas.DataFrame.empty`: true iff either axis has length 0. -/
def DataFrame.empty (df : DataFrame) : Bool :=
  df.rows.isEmpty || df.columns.isEmpty

/-- Index of the first occurrence of a column label, `none` if absent. -/
def colIdx : List String → String → Option Nat
  | [], _ => none
  | c :: cs, key => if c = key then some 0 else (colIdx cs key).map (· + 1)

/-- `row[key]` on a pandas row (a `Series` labelled by the frame's columns):
the cell under the first column named `key`, or a `KeyError`. -/
def rowGet (columns : List String) (cells : List Cell) (key : String) :
    Except PyExc Cell :=
  match colIdx columns key with
  | none => .error (.keyError key)
  | some j =>
    match cells[j]? with
    | none => .error (.keyError key)
    | some c => .ok c

/-- The outcome of the external steps of `load_sensor_data`
(`requests.get` + `raise_for_status` + `pd.read_csv`, script lines 33-37):
either a parsed table, or some exception raised along the way. -/
inductive FetchOutcome where
  | ok : DataFrame → FetchOutcome
  | raised : PyExc → FetchOutcome
deriving DecidableEq, Repr

/-- The required sensor columns (script lines 41 and 44). -/
def requiredColumns : List String := ["timestamp", "temperature", "humidity"]

/-- `pd.DataFrame(columns=["timestamp", "temperature", "humidity"])`:
the zero-row, schema-preserving fallback table (script lines 41 and 44). -/
def fallbackFrame : DataFrame := ⟨requiredColumns, []⟩

/-- `load_sensor_data` (script lines 31-44), as a function of the external
fetch outcome.  A successfully parsed table is returned as-is — the body
performs no column/schema validation.  `except requests.RequestException`
and `except pd.errors.ParserError` convert those two exception classes into
the fallback empty table (after an `st.error` display call, a pure UI
effect not modelled); any other exception propagates to the caller. -/
def load_sensor_data (outcome : FetchOutcome) : Except PyExc DataFrame :=
  match outcome with
  | .ok df => .ok df
  | .raised e =>
    if isRequestException e then .ok fallbackFrame
    else if isParserError e then .ok fallbackFrame
    else .error e

/-- The dictionary returned by `fetch_sensor_data`; both branches of the
script construct both keys, so it is a total record. -/
structure SensorData where
  temperature : Cell
  humidity : Cell
deriving DecidableEq, Repr

/-- One entry of `sensor_history` (script lines 112-116). -/
structure Reading where
  timestamp : String
  temperature : Cell
  humidity : Cell
deriving DecidableEq, Repr

/-- `st.session_state`: `csv_row_index` is `none` while the key is absent
(before the lazy initialisation at lines 53-54); `sensor_history` starts
`[]` (lines 90-91). -/
structure SessionState where
  csv_row_index : Option Nat
  sensor_history : List Reading
deriving DecidableEq, Repr

/-- The session state at session start: neither key set / history empty. -/
def initialState : SessionState := ⟨none, []⟩

/-- `fetch_sensor_data` (script lines 47-63), given the outcome of the
underlying `load_sensor_data` fetch.  Returns the produced dictionary (or
the propagated exception) together with the session state after the call.
Mirrors the statement order of the source: on a non-empty frame the row is
selected first (line 57), then the counter is incremented (line 58), then
the `temperature` and `humidity` cells are looked up for the returned
dictionary (lines 60-63) — so a `KeyError` on a missing column happens
after the counter increment. -/
def fetch_sensor_data (outcome : FetchOutcome) (st : SessionState) :
    Except PyExc SensorData × SessionState :=
  match load_sensor_data outcome with
  | .error e => (.error e, st)
  | .ok df =>
    if df.empty then
      (.ok ⟨.int 0, .int 0⟩, st)
    else
      -- `st.csv_row_index.getD 0` is the lazy initialisation
      -- `if "csv_row_index" not in st.session_state: ... = 0` (lines 53-54)
      match df.rows[(st.csv_row_index.getD 0) % df.rows.length]? with
      | none => (.error (.indexError "iloc"), st)
      | some cells =>
        match rowGet df.columns cells "temperature" with
        | .error e =>
          (.error e, { st with csv_row_index := some (st.csv_row_index.getD 0 + 1) })
        | .ok t =>
          match rowGet df.columns cells "humidity" with
          | .error e =>
            (.error e, { st with csv_row_index := some (st.csv_row_index.getD 0 + 1) })
          | .ok h =>
            (.ok ⟨t, h⟩, { st with csv_row_index := some (st.csv_row_index.getD 0 + 1) })

/-- Python list slice `l[-n:]` for `n > 0`: the last `min n (length l)`
elements, in order (script line 119 uses `n = 50`). -/
def pyTakeLast (n : Nat) (l : List α) : List α := l.drop (l.length - n)

/-- One iteration of the polling loop body (script lines 106-119): fetch,
stamp with the wall-clock string `now`, append to `sensor_history`, trim to
the last 50.  The loop has no try/except of its own, so an exception from
`fetch_sensor_data` propagates and terminates the loop (`.error`).
`sensor_data.get("temperature", 0)` and `.get("humidity", 0)` always find
their key, since both branches of `fetch_sensor_data` construct both. -/
def loop_iter (outcome : FetchOutcome) (now : String) (st : SessionState) :
    Except PyExc (Reading × SessionState) :=
  match fetch_sensor_data outcome st with
  | (.error e, _) => .error e
  | (.ok sd, st') =>
    let r : Reading := ⟨now, sd.temperature, sd.humidity⟩
    .ok (r, { st' with sensor_history := pyTakeLast 50 (st'.sensor_history ++ [r]) })

/-- A run of the polling loop over a finite sequence of iteration inputs
(each: the external fetch outcome of that cycle and the wall-clock stamp).
Returns the list of readings appended during the run (the trace) and the
final state, or the first uncaught exception. -/
def run_loop (inputs : List (FetchOutcome × String)) (st : SessionState) :
    Except PyExc (List Reading × SessionState) :=
  match inputs with
  | [] => .ok ([], st)
  | (o, now) :: rest =>
    match loop_iter o now st with
    | .error e => .error e
    | .ok (r, st') =>
      match run_loop rest st' with
      | .error e => .error e
      | .ok (rs, st'') => .ok (r :: rs, st'')

/-- A mocked control result: the value returned to the caller (or a
propagated exception) and the list of HTTP requests the call issued. -/
structure ControlResult where
  message : Except PyExc String
  httpRequests : List String
deriving Repr

/-- `send_control_command` (script lines 66-72).  The try-body is a single
f-string (line 69) — it issues no network request and cannot raise, so the
`except requests.RequestException` handler (lines 70-72, returning
"Failed to send command.") is dead code and the call always returns the
mock message. -/
def send_control_command (device_id state : String) : ControlResult :=
  { message := .ok ("Mock: Command " ++ state ++ " sent to " ++ device_id)
    httpRequests := [] }

/-- TTL of the `st.cache_data` decorator on `load_sensor_data`
(script line 30). -/
def cacheTTL : Nat := 60

/-- A cache entry: the time a value was computed and the cached value. -/
structure CacheEntry where
  time : Nat
  value : DataFrame
deriving DecidableEq, Repr

/-- Modelled from the spec: the `st.cache_data(ttl=60)` memoisation wrapped
around `load_sensor_data` (script line 30) lives in the streamlit library,
not in this repository; per the spec it is a time-to-live cache — "a cached
value is reused until it expires, then re-fetched unconditionally".
`cached_load cache t outcome` is a call at time `t` (seconds) with `cache`
the current cache state and `outcome` what the underlying fetch would
produce if a request were issued.  Returns the call's result, the new cache
state, and whether a new request was issued.  A cached value younger than
the TTL is reused without any request; otherwise the body runs and a
successful return value is cached at time `t`. -/
def cached_load (cache : Option CacheEntry) (t : Nat) (outcome : FetchOutcome) :
    Except PyExc DataFrame × Option CacheEntry × Bool :=
  match cache with
  | some e =>
    if t - e.time < cacheTTL then (.ok e.value, some e, false)
    else
      match load_sensor_data outcome with
      | .ok df => (.ok df, some ⟨t, df⟩, true)
      | .error ex => (.error ex, some e, true)
  | none =>
    match load_sensor_data outcome with
    | .ok df => (.ok df, some ⟨t, df⟩, true)
    | .error ex => (.error ex, none, true)

/-- Whether a call with external outcome `o` takes the non-empty-table path
of `fetch_sensor_data` (and hence advances `csv_row_index`): the load must
return a table (caught errors return the empty fallback) and the table must
be non-empty. -/
def callAdvances (o : FetchOutcome) : Bool :=
  match load_sensor_data o with
  | .ok df => !df.empty
  | .error _ => false

/-- The session state after a sequence of `fetch_sensor_data` calls with
the given external outcomes. -/
def runCalls (outs : List FetchOutcome) (st : SessionState) : SessionState :=
  outs.foldl (fun s o => (fetch_sensor_data o s).2) st

/-- `fetch_sensor_data` iterated `k` times on one fixed external outcome:
the session state after the first `k` calls. -/
def callN (o : FetchOutcome) (st : SessionState) : Nat → SessionState
  | 0 => st
  | k + 1 => (fetch_sensor_data o (callN o st k)).2

/-- The cell of table `df` at row `i`, column labelled `key` (first match),
with dummy defaults for out-of-range access — used only under hypotheses
that rule the defaults out. -/
def tableCell (df : DataFrame) (key : String) (i : Nat) : Cell :=
  (df.rows.getD i []).getD ((colIdx df.columns key).getD 0) (.int 0)

/-- A table is well-formed when the two sensor columns are present and
every row has one cell per column. -/
def WellFormed (df : DataFrame) : Prop :=
  "temperature" ∈ df.columns ∧ "humidity" ∈ df.columns ∧
    ∀ r ∈ df.rows, r.length = df.columns.length

instance (df : DataFrame) : Decidable (WellFormed df) := by
  unfold WellFormed; infer_instance

/-! ### Buffer lemmas -/

theorem pyTakeLast_nil (n : Nat) : pyTakeLast n ([] : List α) = [] := by
  simp [pyTakeLast]

theorem pyTakeLast_length_le (n : Nat) (l : List α) :
    (pyTakeLast n l).length ≤ n := by
  simp only [pyTakeLast, List.length_drop]
  omega

/-- Trimming to the last `n`, appending one element, and trimming again is
the same as appending then trimming: the trim step loses nothing that a
later trim would have kept. -/
theorem pyTakeLast_append_snoc (n : Nat) (l : List α) (x : α) :
    pyTakeLast n (pyTakeLast n l ++ [x]) = pyTakeLast n (l ++ [x]) := by
  unfold pyTakeLast
  rcases Nat.lt_or_ge l.length n with hlt | hge
  · have h0 : l.length - n = 0 := Nat.sub_eq_zero_of_le (Nat.le_of_lt hlt)
    simp [h0]
  · rcases Nat.eq_zero_or_pos n with hn0 | hn1
    · subst hn0
      simp [List.drop_length]
    · simp only [List.length_append, List.length_drop, List.length_singleton]
      have e1 : l.length - (l.length - n) + 1 - n = 1 := by omega
      have e2 : l.length + 1 - n = 1 + (l.length - n) := by omega
      rw [e1, e2, List.drop_append_eq_append_drop, List.drop_append_eq_append_drop,
        List.drop_drop]
      have e3 : 1 - (l.drop (l.length - n)).length = 0 := by
        simp only [List.length_drop]; omega
      have e4 : 1 + (l.length - n) - l.length = 0 := by omega
      have e5 : l.length - n + 1 = 1 + (l.length - n) := by omega
      rw [e3, e4, e5]

/-- `fetch_sensor_data` never touches `sensor_history`. -/
theorem fetch_sensor_data_history (o : FetchOutcome) (st : SessionState) :
    (fetch_sensor_data o st).2.sensor_history = st.sensor_history := by
  unfold fetch_sensor_data
  split
  · rfl
  · split
    · rfl
    · split
      · rfl
      · split
        · rfl
        · split
          · rfl
          · rfl

/-- Characterisation of a successful loop iteration: the new history is the
old one with the reading appended, trimmed to the last 50, and the counter
is whatever `fetch_sensor_data` left. -/
theorem loop_iter_ok (o : FetchOutcome) (now : String) (st : SessionState)
    (r : Reading) (st1 : SessionState)
    (h : loop_iter o now st = .ok (r, st1)) :
    st1.sensor_history = pyTakeLast 50 (st.sensor_history ++ [r]) := by
  unfold loop_iter at h
  rcases hfx : fetch_sensor_data o st with ⟨res, stf⟩
  rw [hfx] at h
  cases res with
  | error e => simp at h
  | ok sd =>
    dsimp only at h
    simp only [Except.ok.injEq, Prod.mk.injEq] at h
    obtain ⟨hr, hst⟩ := h
    have hhist : stf.sensor_history = st.sensor_history := by
      have := fetch_sensor_data_history o st
      rw [hfx] at this
      exact this
    subst hr
    rw [← hst]
    simp [hhist]

/-- Invariant carried through a run: if the history is the last-50 window
of some already-appended list `acc`, it stays the last-50 window of `acc`
extended by the run's trace. -/
theorem run_loop_history_inv (inputs : List (FetchOutcome × String)) :
    ∀ (st : SessionState) (acc : List Reading),
      st.sensor_history = pyTakeLast 50 acc →
      ∀ (trace : List Reading) (st' : SessionState),
        run_loop inputs st = .ok (trace, st') →
        st'.sensor_history = pyTakeLast 50 (acc ++ trace) := by
  induction inputs with
  | nil =>
    intro st acc hinv trace st' h
    simp only [run_loop, Except.ok.injEq, Prod.mk.injEq] at h
    obtain ⟨h1, h2⟩ := h
    subst h1; subst h2
    simpa using hinv
  | cons p rest ih =>
    obtain ⟨o, now⟩ := p
    intro st acc hinv trace st' h
    simp only [run_loop] at h
    rcases hli : loop_iter o now st with e | pr
    · rw [hli] at h; simp at h
    · rw [hli] at h
      obtain ⟨r, st1⟩ := pr
      dsimp only at h
      rcases hrl : run_loop rest st1 with e2 | pr2
      · rw [hrl] at h; simp at h
      · rw [hrl] at h
        obtain ⟨rs, st2⟩ := pr2
        dsimp only at h
        simp only [Except.ok.injEq, Prod.mk.injEq] at h
        obtain ⟨h1, h2⟩ := h
        subst h1; subst h2
        have hst1 : st1.sensor_history = pyTakeLast 50 (acc ++ [r]) := by
          rw [loop_iter_ok o now st r st1 hli, hinv, pyTakeLast_append_snoc]
        have := ih st1 (acc ++ [r]) hst1 rs st2 hrl
        simpa using this

/-- C1.  Starting from the session-start state (empty history), any run of
the polling loop leaves `sensor_history` equal to the last-50 window of the
readings appended during the run: its length never exceeds 50 after the
trim step, it lists exactly the most recent ≤50 readings in insertion
order, and once more than 50 readings have been appended its length is
exactly 50. -/
theorem sensor_history_capacity_last50
    (inputs : List (FetchOutcome × String)) (trace : List Reading)
    (st' : SessionState)
    (hrun : run_loop inputs initialState = .ok (trace, st')) :
    st'.sensor_history.length ≤ 50 ∧
    st'.sensor_history = pyTakeLast 50 trace ∧
    (trace.length > 50 → st'.sensor_history.length = 50) := by
  have h0 : initialState.sensor_history = pyTakeLast 50 [] := by
    simp [initialState, pyTakeLast_nil]
  have h := run_loop_history_inv inputs initialState [] h0 trace st' hrun
  simp only [List.nil_append] at h
  refine ⟨?_, h, ?_⟩
  · rw [h]; exact pyTakeLast_length_le 50 trace
  · intro hgt
    rw [h]
    simp only [pyTakeLast, List.length_drop]
    omega

/-- Witness for C1: a concrete two-iteration run from the initial state. -/
theorem sensor_history_capacity_last50_witness :
    (⟨none, [⟨"a", .int 0, .int 0⟩, ⟨"b", .int 0, .int 0⟩]⟩ :
        SessionState).sensor_history.length ≤ 50 ∧
    (⟨none, [⟨"a", .int 0, .int 0⟩, ⟨"b", .int 0, .int 0⟩]⟩ :
        SessionState).sensor_history =
      pyTakeLast 50 [⟨"a", .int 0, .int 0⟩, ⟨"b", .int 0, .int 0⟩] ∧
    (([⟨"a", .int 0, .int 0⟩, ⟨"b", .int 0, .int 0⟩] :
        List Reading).length > 50 →
      (⟨none, [⟨"a", .int 0, .int 0⟩, ⟨"b", .int 0, .int 0⟩]⟩ :
        SessionState).sensor_history.length = 50) :=
  sensor_history_capacity_last50
    [(.ok fallbackFrame, "a"), (.ok fallbackFrame, "b")]
    [⟨"a", .int 0, .int 0⟩, ⟨"b", .int 0, .int 0⟩]
    ⟨none, [⟨"a", .int 0, .int 0⟩, ⟨"b", .int 0, .int 0⟩]⟩ rfl

/-! ### Row-cycling lemmas -/

theorem colIdx_mem {cs : List String} {key : String} (h : key ∈ cs) :
    ∃ j, colIdx cs key = some j ∧ j < cs.length := by
  induction cs with
  | nil => cases h
  | cons c cs ih =>
    by_cases hc : c = key
    · exact ⟨0, by simp [colIdx, hc], by simp⟩
    · have hmem : key ∈ cs := by
        cases h with
        | head => exact absurd rfl hc
        | tail _ h => exact h
      obtain ⟨j, hj, hjl⟩ := ih hmem
      exact ⟨j + 1, by simp [colIdx, hc, hj], by simp; omega⟩

/-- On a well-formed table, `row[key]` succeeds and returns the cell that
`tableCell` denotes. -/
theorem rowGet_wf (df : DataFrame) (i : Nat) (key : String)
    (hrows : ∀ r ∈ df.rows, r.length = df.columns.length)
    (hkey : key ∈ df.columns) (hi : i < df.rows.length) :
    rowGet df.columns df.rows[i] key = .ok (tableCell df key i) := by
  obtain ⟨j, hj, hjl⟩ := colIdx_mem hkey
  have hcl : df.rows[i].length = df.columns.length :=
    hrows _ (List.getElem_mem hi)
  have hjr : j < df.rows[i].length := by omega
  unfold rowGet tableCell
  rw [hj]
  simp [List.getElem?_eq_getElem hjr, List.getD_eq_getElem?_getD,
    List.getElem?_eq_getElem hi, List.getElem?_eq_getElem hjr]

/-- Complete characterisation of the session state left by one
`fetch_sensor_data` call: when the (post-load) table is non-empty the
counter is bumped by exactly one (whether or not the row lookups then
raise), otherwise the state is untouched.  `sensor_history` is never
touched. -/
theorem fetch_sensor_data_state (o : FetchOutcome) (st : SessionState) :
    (fetch_sensor_data o st).2 =
      if callAdvances o then
        { st with csv_row_index := some (st.csv_row_index.getD 0 + 1) }
      else st := by
  unfold fetch_sensor_data callAdvances
  cases hl : load_sensor_data o with
  | error e => simp
  | ok df =>
    dsimp only
    by_cases hemp : df.empty = true
    · simp [hemp]
    · have hemp' : df.empty = false := by
        cases h : df.empty
        · rfl
        · exact absurd h hemp
      have hrows : 0 < df.rows.length := by
        unfold DataFrame.empty at hemp'
        simp only [Bool.or_eq_false_iff, List.isEmpty_eq_false] at hemp'
        exact List.length_pos.mpr hemp'.1
      have hlt : (st.csv_row_index.getD 0) % df.rows.length < df.rows.length :=
        Nat.mod_lt _ hrows
      simp only [hemp', Bool.false_eq_true, if_false, Bool.not_false, if_true,
        List.getElem?_eq_getElem hlt]
      cases rowGet df.columns df.rows[(st.csv_row_index.getD 0) % df.rows.length]
          "temperature" with
      | error e => rfl
      | ok t =>
        cases rowGet df.columns df.rows[(st.csv_row_index.getD 0) % df.rows.length]
            "humidity" with
        | error e => rfl
        | ok h => rfl

/-- After `m` calls on one fixed advancing outcome, starting with the
counter key absent, the counter reads `m`. -/
theorem callN_index (o : FetchOutcome) (hadv : callAdvances o = true) (m : Nat) :
    (callN o initialState m).csv_row_index.getD 0 = m := by
  induction m with
  | zero => rfl
  | succ m ih =>
    show (fetch_sensor_data o (callN o initialState m)).2.csv_row_index.getD 0 = m + 1
    rw [fetch_sensor_data_state, hadv, if_pos rfl]
    simp [ih]

/-- The value returned by the `k`-th `fetch_sensor_data` call (`k` counted
from 1) in a session that repeatedly sees the fixed outcome `o`. -/
def fetchResultAt (o : FetchOutcome) (k : Nat) : Except PyExc SensorData :=
  (fetch_sensor_data o (callN o initialState (k - 1))).1

/-- C2.  For a non-empty well-formed table, the `k`-th call (from 1, the
counter starting unset and bumped once per call) returns the `temperature`
and `humidity` cells of row `(k-1) % len(T)`. -/
theorem fetch_cycles_rows_mod (df : DataFrame) (k : Nat)
    (hne : df.empty = false) (hwf : WellFormed df) (_hk : 1 ≤ k) :
    fetchResultAt (.ok df) k =
      .ok ⟨tableCell df "temperature" ((k - 1) % df.rows.length),
           tableCell df "humidity" ((k - 1) % df.rows.length)⟩ := by
  obtain ⟨htemp, hhum, hrows⟩ := hwf
  have hadv : callAdvances (.ok df) = true := by
    simp [callAdvances, load_sensor_data, hne]
  have hidx : (callN (.ok df) initialState (k - 1)).csv_row_index.getD 0 = k - 1 :=
    callN_index _ hadv _
  have hpos : 0 < df.rows.length := by
    unfold DataFrame.empty at hne
    simp only [Bool.or_eq_false_iff, List.isEmpty_eq_false] at hne
    exact List.length_pos.mpr hne.1
  have hlt : (k - 1) % df.rows.length < df.rows.length := Nat.mod_lt _ hpos
  unfold fetchResultAt fetch_sensor_data
  dsimp only [load_sensor_data]
  simp only [hne, Bool.false_eq_true, if_false, hidx,
    List.getElem?_eq_getElem hlt]
  rw [rowGet_wf df _ "temperature" hrows htemp hlt,
    rowGet_wf df _ "humidity" hrows hhum hlt]

/-- Witness for C2: the spec's two-row example table; the third call
returns row `(3-1) % 2 = 0`. -/
theorem fetch_cycles_rows_mod_witness :
    fetchResultAt
        (.ok ⟨["timestamp", "temperature", "humidity"],
          [[.str "t0", .int 20, .int 50], [.str "t1", .int 21, .int 51]]⟩) 3 =
      .ok ⟨tableCell ⟨["timestamp", "temperature", "humidity"],
          [[.str "t0", .int 20, .int 50], [.str "t1", .int 21, .int 51]]⟩
          "temperature" ((3 - 1) % 2),
        tableCell ⟨["timestamp", "temperature", "humidity"],
          [[.str "t0", .int 20, .int 50], [.str "t1", .int 21, .int 51]]⟩
          "humidity" ((3 - 1) % 2)⟩ :=
  fetch_cycles_rows_mod
    ⟨["timestamp", "temperature", "humidity"],
      [[.str "t0", .int 20, .int 50], [.str "t1", .int 21, .int 51]]⟩
    3 (by decide) (by decide) (by decide)

/-! ### Schema validation (C3) and error catching (C4) -/

/-- Counterexample to C3: a successfully parsed one-row table that lacks
the required `humidity` column.  `load_sensor_data` contains no column
check, so the table is returned as-is: no `SchemaMismatch` error is
produced and the result is a non-empty, partially-populated table rather
than the empty one the claim requires. -/
theorem schema_mismatch_counterexample :
    load_sensor_data (.ok ⟨["timestamp", "temperature"],
        [[.str "t0", .int 20]]⟩) =
      .ok ⟨["timestamp", "temperature"], [[.str "t0", .int 20]]⟩ ∧
    ("humidity" ∈ (⟨["timestamp", "temperature"], [[.str "t0", .int 20]]⟩ :
        DataFrame).columns ↔ False) ∧
    (⟨["timestamp", "temperature"], [[.str "t0", .int 20]]⟩ :
        DataFrame).empty = false ∧
    "humidity" ∈ requiredColumns := by
  refine ⟨rfl, ?_, rfl, by decide⟩
  simp [DataFrame.columns]

/-- C3 as amended: `load_sensor_data` performs no schema validation at all —
every successfully fetched and parsed table is returned unchanged,
whether or not the required columns are present; the schema-preserving
empty table is produced only as the fallback of the two caught exception
classes. -/
theorem load_returns_parsed_table_unvalidated (df : DataFrame) :
    load_sensor_data (.ok df) = .ok df := rfl

/-- Counterexample to C4: `pd.read_csv` raises
`pandas.errors.EmptyDataError` ("No columns to parse from file") on an
empty payload — e.g. a 200 response with an empty body.  `EmptyDataError`
subclasses `ValueError`, not `ParserError`, so neither `except` clause of
`load_sensor_data` matches it: the exception propagates out of the fetcher,
and since the polling loop has no handler of its own, a run of the loop
terminates with the uncaught exception instead of continuing. -/
theorem fetch_error_uncaught_counterexample :
    run_loop [(.raised (.emptyDataError "No columns to parse from file"),
        "2026-01-01 00:00:00")] initialState =
      .error (.emptyDataError "No columns to parse from file") ∧
    load_sensor_data (.raised (.emptyDataError "No columns to parse from file")) =
      .error (.emptyDataError "No columns to parse from file") :=
  ⟨rfl, rfl⟩

/-- C4 as amended: exactly the two handled exception classes —
`requests.RequestException` (network failure, timeout, and the bad-status
`HTTPError`) and `pandas.errors.ParserError` — are caught at the fetcher
boundary and converted into the schema-preserving empty fallback, and a
loop iteration whose fetch raises one of them appends the zero-valued
reading and continues; any other fetch-time exception propagates uncaught
and terminates the loop. -/
theorem fetch_errors_caught_two_classes (e : PyExc)
    (h : isRequestException e = true ∨ isParserError e = true) :
    load_sensor_data (.raised e) = .ok fallbackFrame ∧
    (∀ (now : String) (st : SessionState),
      loop_iter (.raised e) now st =
        .ok (⟨now, .int 0, .int 0⟩,
          { st with sensor_history :=
              pyTakeLast 50 (st.sensor_history ++ [⟨now, .int 0, .int 0⟩]) })) ∧
    (∀ e', isRequestException e' = false → isParserError e' = false →
      load_sensor_data (.raised e') = .error e') := by
  have hload : load_sensor_data (.raised e) = .ok fallbackFrame := by
    rcases h with h | h
    · simp [load_sensor_data, h]
    · simp [load_sensor_data, h]
  refine ⟨hload, ?_, ?_⟩
  · intro now st
    unfold loop_iter fetch_sensor_data
    rw [hload]
    rfl
  · intro e' h1 h2
    simp [load_sensor_data, h1, h2]

/-- Witness for the amended C4, at a concrete timeout exception and a
concrete state. -/
theorem fetch_errors_caught_witness :
    load_sensor_data (.raised (.requestException "timeout")) = .ok fallbackFrame ∧
    (∀ (now : String) (st : SessionState),
      loop_iter (.raised (.requestException "timeout")) now st =
        .ok (⟨now, .int 0, .int 0⟩,
          { st with sensor_history :=
              pyTakeLast 50 (st.sensor_history ++ [⟨now, .int 0, .int 0⟩]) })) ∧
    (∀ e', isRequestException e' = false → isParserError e' = false →
      load_sensor_data (.raised e') = .error e') :=
  fetch_errors_caught_two_classes
    (.requestException "timeout") (Or.inl rfl)

/-! ### Network fallback (C5), empty table (C6), cache TTL (C7) -/

/-- C5.  On a network failure or non-2xx status — both raised as (a
subclass of) `requests.RequestException`, the latter by
`raise_for_status` — `load_sensor_data` reports the error and the caller
receives the zero-row table that still carries the three required columns:
an actual `DataFrame` value, never an absent one. -/
theorem network_error_empty_fallback (detail : String) :
    load_sensor_data (.raised (.requestException detail)) = .ok fallbackFrame ∧
    fallbackFrame.rows = [] ∧
    fallbackFrame.columns = ["timestamp", "temperature", "humidity"] ∧
    fallbackFrame.empty = true :=
  ⟨rfl, rfl, rfl, rfl⟩

/-- C6.  A call made while the table is empty returns exactly the
zero-valued reading, leaves the session state — in particular
`csv_row_index` — untouched, and the loop iteration around it still
appends one (zero-valued) entry to the history, whose length therefore
grows by one until the 50-entry cap clamps it. -/
theorem empty_table_zero_reading (df : DataFrame) (st : SessionState)
    (now : String) (hemp : df.empty = true) :
    fetch_sensor_data (.ok df) st = (.ok ⟨.int 0, .int 0⟩, st) ∧
    loop_iter (.ok df) now st =
      .ok (⟨now, .int 0, .int 0⟩,
        { st with sensor_history :=
            pyTakeLast 50 (st.sensor_history ++ [⟨now, .int 0, .int 0⟩]) }) ∧
    (pyTakeLast 50 (st.sensor_history ++ [⟨now, .int 0, .int 0⟩])).length =
      min (st.sensor_history.length + 1) 50 ∧
    (pyTakeLast 50 (st.sensor_history ++ [⟨now, .int 0, .int 0⟩])).length ≤ 50 := by
  have h1 : fetch_sensor_data (.ok df) st = (.ok ⟨.int 0, .int 0⟩, st) := by
    unfold fetch_sensor_data
    dsimp only [load_sensor_data]
    simp [hemp]
  refine ⟨h1, ?_, ?_, ?_⟩
  · unfold loop_iter
    rw [h1]
  · simp only [pyTakeLast, List.length_drop, List.length_append,
      List.length_singleton]
    omega
  · simp only [pyTakeLast, List.length_drop, List.length_append,
      List.length_singleton]
    omega

/-- Witness for C6: the fallback frame is an empty table; one call at the
initial state. -/
theorem empty_table_zero_reading_witness :
    fetch_sensor_data (.ok fallbackFrame) initialState =
      (.ok ⟨.int 0, .int 0⟩, initialState) ∧
    loop_iter (.ok fallbackFrame) "t" initialState =
      .ok (⟨"t", .int 0, .int 0⟩,
        { initialState with
          sensor_history := pyTakeLast 50 (initialState.sensor_history ++ [⟨"t", .int 0, .int 0⟩]) }) ∧
    (pyTakeLast 50 (initialState.sensor_history ++ [⟨"t", .int 0, .int 0⟩])).length =
      min (initialState.sensor_history.length + 1) 50 ∧
    (pyTakeLast 50 (initialState.sensor_history ++ [⟨"t", .int 0, .int 0⟩])).length ≤ 50 :=
  empty_table_zero_reading fallbackFrame initialState "t" rfl

/-- C7.  The TTL-cache behaviour of the memoised fetch: a successful fetch
of table `A` at `t = 0` populates the cache; a call at `t = TTL - 1`
returns the cached `A` without issuing any request; a call at `t = TTL + 1`
issues a new request unconditionally, whatever the outside world then
answers. -/
theorem ttl_cache_scenario (A : DataFrame) (o1 o2 : FetchOutcome) :
    cached_load none 0 (.ok A) = (.ok A, some ⟨0, A⟩, true) ∧
    cached_load (some ⟨0, A⟩) (cacheTTL - 1) o1 = (.ok A, some ⟨0, A⟩, false) ∧
    (cached_load (some ⟨0, A⟩) (cacheTTL + 1) o2).2.2 = true := by
  refine ⟨rfl, ?_, ?_⟩
  · unfold cached_load
    dsimp only
    rw [if_pos (by decide : cacheTTL - 1 - (0 : Nat) < cacheTTL)]
  · unfold cached_load
    dsimp only
    rw [if_neg (by decide : ¬(cacheTTL + 1 - (0 : Nat) < cacheTTL))]
    cases load_sensor_data o2 <;> rfl

/-! ### Control command (C8, C10) and the row counter (C9) -/

/-- C8.  For every device id and state string, `send_control_command`
returns a message string to its caller and never raises: its try-body is a
single f-string, so the exception handler is unreachable. -/
theorem send_control_command_total (device_id state : String) :
    ∃ msg : String, (send_control_command device_id state).message = .ok msg :=
  ⟨"Mock: Command " ++ state ++ " sent to " ++ device_id, rfl⟩

/-- C10.  `send_control_command` is a pure function of its two arguments:
it issues no HTTP request and returns exactly the mock message
`"Mock: Command " ++ state ++ " sent to " ++ device_id`; consequently any
two calls with the same arguments return the same value. -/
theorem send_control_command_pure_mock (device_id state : String) :
    send_control_command device_id state =
      { message := .ok ("Mock: Command " ++ state ++ " sent to " ++ device_id)
        httpRequests := [] } :=
  rfl

/-- Step behaviour of the counter on one call, read through `getD 0`
(absent behaves as 0, matching the lazy initialisation). -/
theorem fetch_index_step (o : FetchOutcome) (st : SessionState) :
    (fetch_sensor_data o st).2.csv_row_index.getD 0 =
      st.csv_row_index.getD 0 + (if callAdvances o then 1 else 0) := by
  rw [fetch_sensor_data_state]
  cases h : callAdvances o <;> simp

/-- The counter after a sequence of calls, relative to its start value. -/
theorem runCalls_index (outs : List FetchOutcome) :
    ∀ st : SessionState,
      (runCalls outs st).csv_row_index.getD 0 =
        st.csv_row_index.getD 0 + (outs.filter callAdvances).length := by
  induction outs with
  | nil => intro st; simp [runCalls]
  | cons o rest ih =>
    intro st
    have hstep := fetch_index_step o st
    have htail := ih (fetch_sensor_data o st).2
    show (runCalls rest (fetch_sensor_data o st).2).csv_row_index.getD 0 = _
    rw [htail, hstep]
    cases h : callAdvances o
    · simp [List.filter_cons, h]
    · simp [List.filter_cons, h]
      omega

/-- C9.  The row counter `csv_row_index` (read as 0 while unset) is bumped
by exactly one on each call whose table is non-empty and is untouched by
every other call, hence never decreases; starting from the fresh session
state it equals the number of non-empty-table calls made so far. -/
theorem csv_row_index_counts_nonempty_calls :
    (∀ outs : List FetchOutcome,
      (runCalls outs initialState).csv_row_index.getD 0 =
        (outs.filter callAdvances).length) ∧
    (∀ (o : FetchOutcome) (st : SessionState),
      (fetch_sensor_data o st).2.csv_row_index.getD 0 =
        st.csv_row_index.getD 0 + (if callAdvances o then 1 else 0)) ∧
    (∀ (o : FetchOutcome) (st : SessionState),
      st.csv_row_index.getD 0 ≤ (fetch_sensor_data o st).2.csv_row_index.getD 0) := by
  refine ⟨?_, fetch_index_step, ?_⟩
  · intro outs
    have := runCalls_index outs initialState
    simpa [initialState] using this
  · intro o st
    rw [fetch_index_step]
    omega

end IotGuide
